import Mathlib

/-!
Shallow embedding of `public/theme.js` from the evo-sdk-website repository:
a light/dark/system theme switcher. Browser-visible state (the persisted
preference under the theme key, the OS dark-mode media query, the document
root attribute, the theme-color meta tag, and the widget DOM) is modelled
explicitly, and each JS function becomes a Lean function on that state.
-/

namespace ThemeManager

/-- Browser state visible to `theme.js`.
`storage` is the value persisted under `THEME_KEY` in `localStorage`
(`none` when the key is absent); `storageGetThrows` / `storageSetThrows`
record whether the underlying storage throws on `getItem` / `setItem`
(disabled storage, quota, private browsing).  `hasMatchMedia` models the
presence of `window.matchMedia`, `systemDark` whether the
`(prefers-color-scheme: dark)` query matches.  `docTheme` is the
`data-theme` attribute on `document.documentElement` (`none` when unset)
and `metaTag` the `content` of the `meta[name="theme-color"]` tag
(`none` when no such tag exists). -/
structure Browser where
  storage : Option String
  storageGetThrows : Bool
  storageSetThrows : Bool
  hasMatchMedia : Bool
  systemDark : Bool
  docTheme : Option String
  metaTag : Option String
deriving DecidableEq, Repr

/-- JS: `const THEME_KEY = 'evo-sdk-theme';` -/
def THEME_KEY : String := "evo-sdk-theme"

namespace THEMES

/-- JS: `THEMES.LIGHT` -/
def LIGHT : String := "light"

/-- JS: `THEMES.DARK` -/
def DARK : String := "dark"

/-- JS: `THEMES.SYSTEM` -/
def SYSTEM : String := "system"

end THEMES

/-- Truthiness of a JS string-or-null value: `null` and the empty string
are falsy, every other string is truthy. -/
def jsFalsy : Option String → Bool
  | none => true
  | some s => s == ""

/-- JS `v || d` for a string-or-null `v` and a string default `d`:
returns `d` when `v` is falsy, the string in `v` otherwise. -/
def jsOr (v : Option String) (d : String) : String :=
  if jsFalsy v then d else v.getD ""

/-- JS `getSystemTheme`:
`if (window.matchMedia && window.matchMedia('(prefers-color-scheme: dark)').matches) return THEMES.DARK; return THEMES.LIGHT;` -/
def getSystemTheme (b : Browser) : String :=
  if b.hasMatchMedia && b.systemDark then THEMES.DARK else THEMES.LIGHT

/-- Raw `localStorage.getItem(THEME_KEY)`: throws when storage is
unavailable, otherwise returns the stored value or null. -/
def localStorageGetItem (b : Browser) : Except Unit (Option String) :=
  if b.storageGetThrows then Except.error () else Except.ok b.storage

/-- Raw `localStorage.setItem(THEME_KEY, value)`: throws when storage is
unavailable, otherwise overwrites the stored value. -/
def localStorageSetItem (b : Browser) (value : String) : Except Unit Browser :=
  if b.storageSetThrows then Except.error () else Except.ok { b with storage := some value }

/-- JS `getStoredTheme`: `try { return localStorage.getItem(THEME_KEY); } catch { return null; }` -/
def getStoredTheme (b : Browser) : Option String :=
  match localStorageGetItem b with
  | Except.ok v => v
  | Except.error _ => none

/-- JS `storeTheme`: `try { localStorage.setItem(THEME_KEY, theme); } catch { }` -/
def storeTheme (b : Browser) (theme : String) : Browser :=
  match localStorageSetItem b theme with
  | Except.ok b1 => b1
  | Except.error _ => b

/-- JS `getEffectiveTheme`:
`if (preference === THEMES.SYSTEM || !preference) return getSystemTheme(); return preference;` -/
def getEffectiveTheme (preference : Option String) (b : Browser) : String :=
  if preference == some THEMES.SYSTEM || jsFalsy preference then
    getSystemTheme b
  else
    preference.getD ""

/-- JS `applyTheme`: resolves the effective theme, sets the `data-theme`
attribute on the document root, and when the theme-color meta tag exists
sets its content to `#0f3460` (dark) or `#2c3e50` (light). -/
def applyTheme (theme : Option String) (b : Browser) : Browser :=
  let effectiveTheme := getEffectiveTheme theme b
  { b with
    docTheme := some effectiveTheme,
    metaTag := b.metaTag.map
      (fun _ => if effectiveTheme = THEMES.DARK then "#0f3460" else "#2c3e50") }

/-- JS `initTheme`:
`const storedTheme = getStoredTheme() || THEMES.SYSTEM; applyTheme(storedTheme); return storedTheme;` -/
def initTheme (b : Browser) : String × Browser :=
  let storedTheme := jsOr (getStoredTheme b) THEMES.SYSTEM
  (storedTheme, applyTheme (some storedTheme) b)

/-- Result of firing the system-theme change handler: the updated browser
state and the list of arguments the optional callback was invoked with. -/
structure HandlerEffect where
  browser : Browser
  callbackCalls : List String
deriving DecidableEq, Repr

/-- The `handler` closure registered by JS `setupSystemThemeListener`:
`const storedTheme = getStoredTheme(); if (storedTheme === THEMES.SYSTEM || !storedTheme) { applyTheme(THEMES.SYSTEM); if (callback) callback(THEMES.SYSTEM); }`.
`hasCallback` records whether a callback argument was supplied. -/
def systemThemeChangeHandler (hasCallback : Bool) (b : Browser) : HandlerEffect :=
  if getStoredTheme b == some THEMES.SYSTEM || jsFalsy (getStoredTheme b) then
    { browser := applyTheme (some THEMES.SYSTEM) b,
      callbackCalls := if hasCallback then [THEMES.SYSTEM] else [] }
  else
    { browser := b, callbackCalls := [] }

end ThemeManager

namespace ThemeManager

-- SVG icon strings from the JS `ICONS` constant.
namespace ICONS

/-- JS `ICONS.sun` -/
def sun : String :=
  "<svg class=\"theme-option-icon\" viewBox=\"0 0 24 24\" fill=\"none\" stroke=\"currentColor\" stroke-width=\"2\" stroke-linecap=\"round\" stroke-linejoin=\"round\">\n    <circle cx=\"12\" cy=\"12\" r=\"5\"></circle>\n    <line x1=\"12\" y1=\"1\" x2=\"12\" y2=\"3\"></line>\n    <line x1=\"12\" y1=\"21\" x2=\"12\" y2=\"23\"></line>\n    <line x1=\"4.22\" y1=\"4.22\" x2=\"5.64\" y2=\"5.64\"></line>\n    <line x1=\"18.36\" y1=\"18.36\" x2=\"19.78\" y2=\"19.78\"></line>\n    <line x1=\"1\" y1=\"12\" x2=\"3\" y2=\"12\"></line>\n    <line x1=\"21\" y1=\"12\" x2=\"23\" y2=\"12\"></line>\n    <line x1=\"4.22\" y1=\"19.78\" x2=\"5.64\" y2=\"18.36\"></line>\n    <line x1=\"18.36\" y1=\"5.64\" x2=\"19.78\" y2=\"4.22\"></line>\n  </svg>"

/-- JS `ICONS.moon` -/
def moon : String :=
  "<svg class=\"theme-option-icon\" viewBox=\"0 0 24 24\" fill=\"none\" stroke=\"currentColor\" stroke-width=\"2\" stroke-linecap=\"round\" stroke-linejoin=\"round\">\n    <path d=\"M21 12.79A9 9 0 1 1 11.21 3 7 7 0 0 0 21 12.79z\"></path>\n  </svg>"

/-- JS `ICONS.system` -/
def system : String :=
  "<svg class=\"theme-option-icon\" viewBox=\"0 0 24 24\" fill=\"none\" stroke=\"currentColor\" stroke-width=\"2\" stroke-linecap=\"round\" stroke-linejoin=\"round\">\n    <rect x=\"2\" y=\"3\" width=\"20\" height=\"14\" rx=\"2\" ry=\"2\"></rect>\n    <line x1=\"8\" y1=\"21\" x2=\"16\" y2=\"21\"></line>\n    <line x1=\"12\" y1=\"17\" x2=\"12\" y2=\"21\"></line>\n  </svg>"

end ICONS

/-- JS `getIconForTheme`: switch over the theme with `ICONS.system` as default. -/
def getIconForTheme (theme : String) : String :=
  if theme = THEMES.LIGHT then ICONS.sun
  else if theme = THEMES.DARK then ICONS.moon
  else ICONS.system

/-- JS `getLabelForTheme`: switch over the theme with `System` as default. -/
def getLabelForTheme (theme : String) : String :=
  if theme = THEMES.LIGHT then "Light"
  else if theme = THEMES.DARK then "Dark"
  else "System"

/-- The theme-selector widget built by `createThemeSelector`:
the button icon/label spans, the `active` class on each of the three
options, the `open` class on the dropdown, and the `aria-expanded`
attribute on the button. -/
structure Widget where
  btnIcon : String
  btnLabel : String
  activeLight : Bool
  activeDark : Bool
  activeSystem : Bool
  dropdownOpen : Bool
  ariaExpanded : String
deriving DecidableEq, Repr

/-- JS `setTheme(theme, selectorElement)`: stores the preference, applies
the theme, and when a selector element is given updates its button
icon/label and toggles the `active` class on each option according to
`opt.dataset.theme === theme`. -/
def setTheme (theme : String) (selectorElement : Option Widget) (b : Browser) :
    Option Widget × Browser :=
  let b1 := storeTheme b theme
  let b2 := applyTheme (some theme) b1
  match selectorElement with
  | some w =>
      (some { w with
        btnIcon := getIconForTheme theme,
        btnLabel := getLabelForTheme theme,
        activeLight := theme == THEMES.LIGHT,
        activeDark := theme == THEMES.DARK,
        activeSystem := theme == THEMES.SYSTEM }, b2)
  | none => (none, b2)

/-- The click handler `createThemeSelector` attaches to each theme option:
`setTheme(option.dataset.theme, selector); dropdown.classList.remove('open'); btn.setAttribute('aria-expanded', 'false');` -/
def optionClick (theme : String) (w : Widget) (b : Browser) : Widget × Browser :=
  let r := setTheme theme (some w) b
  let w1 := r.1.getD w
  ({ w1 with dropdownOpen := false, ariaExpanded := "false" }, r.2)

/-- Page state for widget construction: the browser, the ids of elements
present in the document, the event listeners registered so far, and the
widget once mounted. -/
structure Page where
  browser : Browser
  elementIds : List String
  listeners : List String
  widget : Option Widget
deriving DecidableEq, Repr

/-- The event listeners `createThemeSelector` registers after mounting. -/
def selectorListeners : List String :=
  ["btn-click", "option-click", "document-click", "btn-keydown"]

/-- JS `createThemeSelector(containerId)`:
`const container = document.getElementById(containerId); if (!container) return;`
then builds the selector from `getStoredTheme() || THEMES.SYSTEM`
(button icon/label from the current theme, `active` class on the matching
option, dropdown closed, `aria-expanded="false"`), appends it to the
container and registers the event listeners. -/
def createThemeSelector (containerId : String) (p : Page) : Option Widget × Page :=
  if containerId ∉ p.elementIds then (none, p)
  else
    let currentTheme := jsOr (getStoredTheme p.browser) THEMES.SYSTEM
    let selector : Widget :=
      { btnIcon := getIconForTheme currentTheme,
        btnLabel := getLabelForTheme currentTheme,
        activeLight := currentTheme == THEMES.LIGHT,
        activeDark := currentTheme == THEMES.DARK,
        activeSystem := currentTheme == THEMES.SYSTEM,
        dropdownOpen := false,
        ariaExpanded := "false" }
    (some selector,
      { p with widget := some selector,
               listeners := p.listeners ++ selectorListeners })

/-- Events observable during the module load of `theme.js`. -/
inductive LoadEvent
  | initThemeRun
  | createSelectorRun
  | setupListenerRun
deriving DecidableEq, Repr

/-- Body of the JS `initThemeUI` closure: when the `themeToggle` container
exists and `window.ThemeManager` is defined, it runs
`createThemeSelector('themeToggle')` then `setupSystemThemeListener()`. -/
def initThemeUIEvents (hasContainer hasThemeManagerGlobal : Bool) : List LoadEvent :=
  if hasContainer && hasThemeManagerGlobal then
    [LoadEvent.createSelectorRun, LoadEvent.setupListenerRun]
  else []

/-- Trace of a page load of `theme.js`: the module body first runs
`initTheme()` at top level, then the auto-init IIFE either runs
`initThemeUI` immediately (document already past `loading`) or defers it
to the `DOMContentLoaded` event, which fires only after the module body
has finished. -/
def pageLoadTrace (readyStateLoading hasContainer hasThemeManagerGlobal : Bool) :
    List LoadEvent :=
  ([LoadEvent.initThemeRun] ++
    (if readyStateLoading then [] else initThemeUIEvents hasContainer hasThemeManagerGlobal))
  ++ (if readyStateLoading then initThemeUIEvents hasContainer hasThemeManagerGlobal else [])

/-- Sample browser state: storage works and holds `"dark"`, matchMedia
present and reporting dark, theme-color meta tag present. -/
def sampleBrowser : Browser :=
  { storage := some "dark",
    storageGetThrows := false,
    storageSetThrows := false,
    hasMatchMedia := true,
    systemDark := true,
    docTheme := none,
    metaTag := some "#ffffff" }

/-- Sample browser whose storage throws on both get and set. -/
def throwingBrowser : Browser :=
  { storage := some "dark",
    storageGetThrows := true,
    storageSetThrows := true,
    hasMatchMedia := true,
    systemDark := false,
    docTheme := none,
    metaTag := none }

/-- Sample browser with the preference `"system"` stored, storage working,
matchMedia present, system reporting light. -/
def systemPrefBrowser : Browser :=
  { storage := some "system",
    storageGetThrows := false,
    storageSetThrows := false,
    hasMatchMedia := true,
    systemDark := false,
    docTheme := some "light",
    metaTag := none }

/-- Sample browser with a corrupted stored preference `"bogus"`. -/
def corruptBrowser : Browser :=
  { storage := some "bogus",
    storageGetThrows := false,
    storageSetThrows := false,
    hasMatchMedia := true,
    systemDark := false,
    docTheme := none,
    metaTag := none }

/-- Sample browser with no stored preference and working storage. -/
def noPrefBrowser : Browser :=
  { storage := none,
    storageGetThrows := false,
    storageSetThrows := false,
    hasMatchMedia := true,
    systemDark := true,
    docTheme := none,
    metaTag := none }

/-- Sample widget state as mounted with current theme `"system"`, with the
dropdown open. -/
def sampleWidget : Widget :=
  { btnIcon := ICONS.system,
    btnLabel := "System",
    activeLight := false,
    activeDark := false,
    activeSystem := true,
    dropdownOpen := true,
    ariaExpanded := "true" }

/-- Sample page containing only the `themeToggle` container. -/
def samplePage : Page :=
  { browser := sampleBrowser,
    elementIds := ["themeToggle"],
    listeners := [],
    widget := none }

end ThemeManager

namespace ThemeManager

/-- C1: for a stored preference `"light"` or `"dark"`, `getEffectiveTheme`
returns that preference unchanged regardless of the system dark-mode
value; for the preference `"system"` or an absent (null/empty)
preference, it returns the OS dark-mode query result: `"dark"` if the
query matches, otherwise `"light"`. -/
theorem getEffectiveTheme_spec (b : Browser) (preference : Option String) :
    ((preference = some THEMES.LIGHT ∨ preference = some THEMES.DARK) →
      getEffectiveTheme preference b = preference.getD "") ∧
    ((preference = some THEMES.SYSTEM ∨ preference = none ∨ preference = some "") →
      getEffectiveTheme preference b =
        if b.hasMatchMedia && b.systemDark then THEMES.DARK else THEMES.LIGHT) := by
  constructor
  · rintro (h | h) <;> subst h <;> rfl
  · rintro (h | h | h) <;> subst h <;> rfl

/-- Witness for C1 at concrete inputs. -/
theorem getEffectiveTheme_spec_witness :
    getEffectiveTheme (some "light") sampleBrowser = "light" ∧
    getEffectiveTheme (some "system") sampleBrowser =
      if sampleBrowser.hasMatchMedia && sampleBrowser.systemDark
      then THEMES.DARK else THEMES.LIGHT :=
  ⟨(getEffectiveTheme_spec sampleBrowser (some "light")).1 (Or.inl rfl),
   (getEffectiveTheme_spec sampleBrowser (some "system")).2 (Or.inl rfl)⟩

/-- C3: if the underlying storage throws on get then `getStoredTheme`
returns null with no exception propagating, and if it throws on set then
`storeTheme` returns normally (leaving the state unchanged); no storage
failure is surfaced to the caller. -/
theorem storage_failures_swallowed (b : Browser) (t : String) :
    (b.storageGetThrows = true →
      localStorageGetItem b = Except.error () ∧ getStoredTheme b = none) ∧
    (b.storageSetThrows = true →
      localStorageSetItem b t = Except.error () ∧ storeTheme b t = b) := by
  constructor
  · intro h
    have : localStorageGetItem b = Except.error () := by
      simp [localStorageGetItem, h]
    exact ⟨this, by simp [getStoredTheme, this]⟩
  · intro h
    have : localStorageSetItem b t = Except.error () := by
      simp [localStorageSetItem, h]
    exact ⟨this, by simp [storeTheme, this]⟩

/-- Witness for C3 on a browser whose storage throws. -/
theorem storage_failures_swallowed_witness :
    getStoredTheme throwingBrowser = none ∧
    storeTheme throwingBrowser "dark" = throwingBrowser :=
  ⟨((storage_failures_swallowed throwingBrowser "dark").1 rfl).2,
   ((storage_failures_swallowed throwingBrowser "dark").2 rfl).2⟩

/-- C6: when storage is available, `storeTheme pref` followed by
`getStoredTheme` returns exactly `pref`. -/
theorem store_then_get_roundtrip (b : Browser) (pref : String)
    (hget : b.storageGetThrows = false) (hset : b.storageSetThrows = false) :
    getStoredTheme (storeTheme b pref) = some pref := by
  simp [getStoredTheme, storeTheme, localStorageGetItem, localStorageSetItem, hget, hset]

/-- Witness for C6 at a concrete browser and preference. -/
theorem store_then_get_roundtrip_witness :
    getStoredTheme (storeTheme sampleBrowser "light") = some "light" :=
  store_then_get_roundtrip sampleBrowser "light" rfl rfl

/-- C5: `applyTheme` sets the document root `data-theme` attribute to the
effective theme; when a theme-color meta tag exists its content becomes
`#0f3460` for dark and `#2c3e50` otherwise; and `applyTheme` is
idempotent: applying the same argument twice (the system preference
unchanged) yields the same browser state as applying it once. -/
theorem applyTheme_spec (b : Browser) (t : Option String) (c : String) :
    (applyTheme t b).docTheme = some (getEffectiveTheme t b) ∧
    (b.metaTag = some c →
      (applyTheme t b).metaTag =
        some (if getEffectiveTheme t b = THEMES.DARK then "#0f3460" else "#2c3e50")) ∧
    applyTheme t (applyTheme t b) = applyTheme t b := by
  cases b with
  | mk st g s m d doc mt =>
    cases mt with
    | none => exact ⟨rfl, fun h => Option.noConfusion h, rfl⟩
    | some c0 => exact ⟨rfl, fun _ => rfl, rfl⟩

/-- Witness for C5 at a concrete browser with a meta tag present. -/
theorem applyTheme_spec_witness :
    (applyTheme (some "dark") sampleBrowser).metaTag =
      some (if getEffectiveTheme (some "dark") sampleBrowser = THEMES.DARK
            then "#0f3460" else "#2c3e50") :=
  (applyTheme_spec sampleBrowser (some "dark") "#ffffff").2.1 rfl

/-- C10: `initTheme` never returns null or an empty value: it returns the
stored string when that string is non-empty, and `"system"` when the
stored value is null, absent, or the empty string — a stored empty string
is indistinguishable from no stored preference at this interface. -/
theorem initTheme_never_empty (b : Browser) :
    ((initTheme b).1 =
      match getStoredTheme b with
      | none => THEMES.SYSTEM
      | some s => if s = "" then THEMES.SYSTEM else s) ∧
    (initTheme b).1 ≠ "" := by
  have h1 : (initTheme b).1 = jsOr (getStoredTheme b) THEMES.SYSTEM := rfl
  rw [h1]
  cases hb : getStoredTheme b with
  | none => exact ⟨rfl, by decide⟩
  | some s =>
      by_cases hs : s = ""
      · subst hs
        exact ⟨rfl, by decide⟩
      · refine ⟨?_, ?_⟩ <;> simp [jsOr, jsFalsy, hs]

/-- C4: when the OS dark-mode media query fires, the registered handler
with a stored preference `"system"` or absent re-resolves against the new
system value and re-applies it to the document, and invokes the optional
callback with `"system"`; with an explicit stored `"light"` or `"dark"`
it changes nothing and invokes no callback. -/
theorem systemThemeChangeHandler_spec (b : Browser) (hasCallback : Bool) :
    ((getStoredTheme b = some THEMES.SYSTEM ∨ getStoredTheme b = none ∨
        getStoredTheme b = some "") →
      (systemThemeChangeHandler hasCallback b).browser = applyTheme (some THEMES.SYSTEM) b ∧
      (systemThemeChangeHandler hasCallback b).browser.docTheme = some (getSystemTheme b) ∧
      (systemThemeChangeHandler hasCallback b).callbackCalls =
        if hasCallback then [THEMES.SYSTEM] else []) ∧
    ((getStoredTheme b = some THEMES.LIGHT ∨ getStoredTheme b = some THEMES.DARK) →
      (systemThemeChangeHandler hasCallback b).browser = b ∧
      (systemThemeChangeHandler hasCallback b).callbackCalls = []) := by
  constructor
  · intro h
    have hcond : (getStoredTheme b == some THEMES.SYSTEM || jsFalsy (getStoredTheme b)) = true := by
      rcases h with h | h | h <;> rw [h] <;> rfl
    have he : systemThemeChangeHandler hasCallback b =
        { browser := applyTheme (some THEMES.SYSTEM) b,
          callbackCalls := if hasCallback then [THEMES.SYSTEM] else [] } := by
      rw [systemThemeChangeHandler, if_pos hcond]
    refine ⟨by rw [he], ?_, by rw [he]⟩
    rw [he]
    cases b with
    | mk st g s m d doc mt => rfl
  · intro h
    have hcond : (getStoredTheme b == some THEMES.SYSTEM || jsFalsy (getStoredTheme b)) = false := by
      rcases h with h | h <;> rw [h] <;> rfl
    have he : systemThemeChangeHandler hasCallback b =
        { browser := b, callbackCalls := [] } := by
      rw [systemThemeChangeHandler, hcond]
      rfl
    exact ⟨by rw [he], by rw [he]⟩

/-- Witness for C4: stored `"system"`, callback supplied. -/
theorem systemThemeChangeHandler_spec_witness :
    (systemThemeChangeHandler true systemPrefBrowser).browser.docTheme =
      some (getSystemTheme systemPrefBrowser) ∧
    (systemThemeChangeHandler true systemPrefBrowser).callbackCalls =
      if true then [THEMES.SYSTEM] else [] :=
  ⟨((systemThemeChangeHandler_spec systemPrefBrowser true).1 (Or.inl rfl)).2.1,
   ((systemThemeChangeHandler_spec systemPrefBrowser true).1 (Or.inl rfl)).2.2⟩

/-- C7: clicking any of the three widget options stores that option theme
as the preference, applies the resolved theme to the document, updates
the button icon and label to the selected theme, marks exactly the
selected option active, and forces the dropdown closed. -/
theorem optionClick_spec (b : Browser) (w : Widget) (t : String)
    (_ht : t = THEMES.LIGHT ∨ t = THEMES.DARK ∨ t = THEMES.SYSTEM)
    (hset : b.storageSetThrows = false) :
    (optionClick t w b).2.storage = some t ∧
    (optionClick t w b).2.docTheme = some (getEffectiveTheme (some t) b) ∧
    (optionClick t w b).1.btnIcon = getIconForTheme t ∧
    (optionClick t w b).1.btnLabel = getLabelForTheme t ∧
    ((optionClick t w b).1.activeLight = (t == THEMES.LIGHT) ∧
     (optionClick t w b).1.activeDark = (t == THEMES.DARK) ∧
     (optionClick t w b).1.activeSystem = (t == THEMES.SYSTEM)) ∧
    (optionClick t w b).1.dropdownOpen = false := by
  cases b with
  | mk st g s m d doc mt =>
    simp only [Browser.storageSetThrows] at hset
    subst hset
    exact ⟨rfl, rfl, rfl, rfl, ⟨rfl, rfl, rfl⟩, rfl⟩

/-- Witness for C7: clicking the Light option on a sample page. -/
theorem optionClick_spec_witness :
    (optionClick "light" sampleWidget sampleBrowser).2.storage = some "light" ∧
    (optionClick "light" sampleWidget sampleBrowser).1.btnLabel = getLabelForTheme "light" ∧
    (optionClick "light" sampleWidget sampleBrowser).1.dropdownOpen = false :=
  ⟨(optionClick_spec sampleBrowser sampleWidget "light" (Or.inl rfl) rfl).1,
   (optionClick_spec sampleBrowser sampleWidget "light" (Or.inl rfl) rfl).2.2.2.1,
   (optionClick_spec sampleBrowser sampleWidget "light" (Or.inl rfl) rfl).2.2.2.2.2⟩

/-- C8: when no element with the given container id exists,
`createThemeSelector` silently no-ops: it returns without a widget and
leaves the page unchanged, registering no event listeners. -/
theorem createThemeSelector_missing_container (containerId : String) (p : Page)
    (h : containerId ∉ p.elementIds) :
    createThemeSelector containerId p = (none, p) := by
  rw [createThemeSelector, if_pos h]

/-- Witness for C8: a container id absent from the sample page. -/
theorem createThemeSelector_missing_container_witness :
    createThemeSelector "sidebar" samplePage = (none, samplePage) :=
  createThemeSelector_missing_container "sidebar" samplePage (by decide)

/-- C9: on every page-load trace, the initial theme application
(`initTheme`) happens strictly before widget construction
(`createThemeSelector`): the trace starts with `initTheme` and any
occurrence of the widget-construction event is at a later position. -/
theorem initTheme_before_createSelector
    (readyStateLoading hasContainer hasThemeManagerGlobal : Bool) (i : Nat)
    (h : (pageLoadTrace readyStateLoading hasContainer hasThemeManagerGlobal).get? i =
      some LoadEvent.createSelectorRun) :
    (pageLoadTrace readyStateLoading hasContainer hasThemeManagerGlobal).get? 0 =
      some LoadEvent.initThemeRun ∧ 0 < i := by
  constructor
  · cases readyStateLoading <;> cases hasContainer <;> cases hasThemeManagerGlobal <;> rfl
  · cases i with
    | zero =>
        exfalso
        cases readyStateLoading <;> cases hasContainer <;> cases hasThemeManagerGlobal <;>
          simp [pageLoadTrace, initThemeUIEvents] at h
    | succ n => exact Nat.succ_pos n

/-- Witness for C9: a non-loading ready state with the container present. -/
theorem initTheme_before_createSelector_witness :
    (pageLoadTrace false true true).get? 0 = some LoadEvent.initThemeRun ∧ 0 < 1 :=
  initTheme_before_createSelector false true true 1 rfl

/-- A truthy stored string other than `"system"` is returned verbatim by
`getEffectiveTheme`. -/
theorem getEffectiveTheme_truthy_nonsystem (b : Browser) (s : String)
    (hne : s ≠ "") (hnsys : s ≠ THEMES.SYSTEM) :
    getEffectiveTheme (some s) b = s := by
  have hnsys2 : s ≠ "system" := hnsys
  simp [getEffectiveTheme, jsFalsy, THEMES.SYSTEM, hne, hnsys2]

/-- C2 counterexample: the stored value `"bogus"` is outside the enum, yet
`initTheme` does not treat it as the preference `"system"`: it applies
`"bogus"` verbatim as the document attribute, while the preference
`"system"` on the same browser state resolves to `"light"`. -/
theorem corrupt_not_treated_as_system :
    (initTheme corruptBrowser).2.docTheme = some "bogus" ∧
    (initTheme { corruptBrowser with storage := some THEMES.SYSTEM }).2.docTheme =
      some THEMES.LIGHT ∧
    (some "bogus" : Option String) ≠ some THEMES.LIGHT :=
  ⟨rfl, rfl, by decide⟩

/-- C2 (amended): every value this program persists under the theme key
(through the widget options) is one of the three enum values; an absent
stored value (null or the empty string) is treated exactly as the
preference `"system"` by the readers; but a corrupted non-empty value
outside the enum is not: `initTheme` returns it and applies it to the
document verbatim. -/
theorem persisted_enum_and_absent_as_system (b : Browser) (w : Widget) (t : String)
    (hc : Bool) :
    ((t = THEMES.LIGHT ∨ t = THEMES.DARK ∨ t = THEMES.SYSTEM) →
      b.storageSetThrows = false →
      (optionClick t w b).2.storage = some t) ∧
    ((getStoredTheme b = none ∨ getStoredTheme b = some "") →
      (initTheme b).1 = THEMES.SYSTEM ∧
      (initTheme b).2.docTheme = some (getSystemTheme b) ∧
      (systemThemeChangeHandler hc b).browser.docTheme = some (getSystemTheme b)) ∧
    (∀ s : String, getStoredTheme b = some s → s ≠ "" → s ≠ THEMES.SYSTEM →
      (initTheme b).1 = s ∧ (initTheme b).2.docTheme = some s) := by
  refine ⟨?_, ?_, ?_⟩
  · intro _h hset
    cases b with
    | mk st g s m d doc mt =>
      simp only [Browser.storageSetThrows] at hset
      subst hset
      rfl
  · intro hb
    have hst : jsOr (getStoredTheme b) THEMES.SYSTEM = THEMES.SYSTEM := by
      rcases hb with hb | hb <;> rw [hb] <;> rfl
    have hcond : (getStoredTheme b == some THEMES.SYSTEM || jsFalsy (getStoredTheme b)) = true := by
      rcases hb with hb | hb <;> rw [hb] <;> rfl
    refine ⟨hst, ?_, ?_⟩
    · have h2 : (initTheme b).2 = applyTheme (some THEMES.SYSTEM) b := by
        show applyTheme (some (jsOr (getStoredTheme b) THEMES.SYSTEM)) b = _
        rw [hst]
      rw [h2]
      cases b with
      | mk st g s m d doc mt => rfl
    · rw [systemThemeChangeHandler, if_pos hcond]
      cases b with
      | mk st g s m d doc mt => rfl
  · intro s hs hne hnsys
    have h1 : jsOr (getStoredTheme b) THEMES.SYSTEM = s := by
      rw [hs]
      simp [jsOr, jsFalsy, hne]
    refine ⟨h1, ?_⟩
    have h2 : (initTheme b).2 = applyTheme (some s) b := by
      show applyTheme (some (jsOr (getStoredTheme b) THEMES.SYSTEM)) b = _
      rw [h1]
    rw [h2]
    have h3 := getEffectiveTheme_truthy_nonsystem b s hne hnsys
    cases b with
    | mk st g sf m d doc mt =>
      show some (getEffectiveTheme (some s) _) = some s
      rw [h3]

/-- Witness for the amended C2: a widget click with `"dark"` persists an
enum value, and an absent stored value makes `initTheme` return
`"system"`. -/
theorem persisted_enum_and_absent_as_system_witness :
    (optionClick "dark" sampleWidget sampleBrowser).2.storage = some "dark" ∧
    (initTheme noPrefBrowser).1 = THEMES.SYSTEM :=
  ⟨(persisted_enum_and_absent_as_system sampleBrowser sampleWidget "dark" true).1
      (Or.inr (Or.inl rfl)) rfl,
   ((persisted_enum_and_absent_as_system noPrefBrowser sampleWidget "dark" true).2.1
      (Or.inl rfl)).1⟩

end ThemeManager
